import Mathlib

/-!
Verification of the PricingArchitect calculation core.

The repository is a single-page pricing-experiment simulator.  Its
computational core consists of two pure functions in `src/App.tsx`:

* `simulation` (lines 39-78): maps an ordered list of pricing variants and
  a global-assumptions record to a list of per-variant results plus the
  summed traffic-split percentage;
* `experimentInsight` (lines 81-105): maps the simulation output to a
  single descriptive sentence.

Numbers are modelled as rationals (`ℚ`): the source computes with
JavaScript numbers and the specified behaviour is the exact arithmetic.
The JavaScript record `Record<string, VariantAssumptions>` is modelled as
an association list with `List.lookup`.
-/

/-- The `BillingCycle` type from `src/types.ts`: Monthly or Annual. -/
inductive BillingCycle where
  | Monthly
  | Annual
deriving DecidableEq, Repr

/-- The `PricingVariant` record from `src/types.ts`. -/
structure PricingVariant where
  id : String
  name : String
  price : ℚ
  billingCycle : BillingCycle
  notes : String
  isControl : Bool
deriving DecidableEq, Repr

/-- The `VariantAssumptions` record from `src/types.ts`. -/
structure VariantAssumptions where
  variantId : String
  trafficSplit : ℚ
  convRate : ℚ
  churnRate : ℚ
deriving DecidableEq, Repr

/-- The `GlobalAssumptions` record from `src/types.ts`; the JS record keyed
by variant id is modelled as an association list. -/
structure GlobalAssumptions where
  monthlyTraffic : ℚ
  perVariantAssumptions : List (String × VariantAssumptions)
deriving DecidableEq, Repr

/-- The `VariantResult` record from `src/types.ts`. -/
structure VariantResult where
  variantId : String
  name : String
  visitors : ℚ
  conversions : ℚ
  revenue : ℚ
  arpu : ℚ
  rpv : ℚ
  isRevenueLeader : Bool
  isRPVLeader : Bool
deriving DecidableEq, Repr

/-- The `SimulationOutput` record from `src/types.ts`. -/
structure SimulationOutput where
  results : List VariantResult
  trafficSplitTotal : ℚ
deriving DecidableEq, Repr

/-- The zeroed default substituted in `App.tsx` line 42 when
`assumptions.perVariantAssumptions[v.id]` is absent:
`{ variantId: v.id, trafficSplit: 0, convRate: 0, churnRate: 0 }`. -/
def defaultAssumptions (id : String) : VariantAssumptions :=
  { variantId := id, trafficSplit := 0, convRate := 0, churnRate := 0 }

/-- The lookup `assumptions.perVariantAssumptions[v.id] || default`
(`App.tsx` line 42). -/
def lookupAssumptions (ga : GlobalAssumptions) (id : String) : VariantAssumptions :=
  (ga.perVariantAssumptions.lookup id).getD (defaultAssumptions id)

/-- The per-variant body of the `variants.map` in `App.tsx` lines 41-66,
before the leader-flag pass: visitors, conversions, normalized monthly
revenue, ARPU and RPV, with both leader flags initialised to `false`. -/
def computeResult (ga : GlobalAssumptions) (v : PricingVariant) : VariantResult :=
  let va := lookupAssumptions ga v.id
  let visitors := ga.monthlyTraffic * (va.trafficSplit / 100)
  let conversions := visitors * (va.convRate / 100)
  let rawRevenue := conversions * v.price
  let normalizedMonthlyRevenue :=
    if v.billingCycle = BillingCycle.Annual then rawRevenue / 12 else rawRevenue
  let arpu :=
    if 0 < conversions then
      (if v.billingCycle = BillingCycle.Annual then v.price / 12 else v.price)
    else 0
  let rpv := if 0 < visitors then normalizedMonthlyRevenue / visitors else 0
  { variantId := v.id
    name := v.name
    visitors := visitors
    conversions := conversions
    revenue := normalizedMonthlyRevenue
    arpu := arpu
    rpv := rpv
    isRevenueLeader := false
    isRPVLeader := false }

/-- The maximum `Math.max(...)` over a nonempty list of rationals
(`App.tsx` lines 69-70); the `[]` case is never reached because the source guards the
computation with `results.length > 0`. -/
def qMax : List ℚ → ℚ
  | [] => 0
  | [x] => x
  | x :: y :: xs => max x (qMax (y :: xs))

/-- The flag mutation of `App.tsx` lines 71-74: starting from `false`, a
flag is set exactly when the value equals the maximum and the maximum is
positive. -/
def setFlags (maxRev maxRPV : ℚ) (r : VariantResult) : VariantResult :=
  { r with
    isRevenueLeader := decide (r.revenue = maxRev ∧ 0 < maxRev)
    isRPVLeader := decide (r.rpv = maxRPV ∧ 0 < maxRPV) }

/-- The leader-flag pass of `App.tsx` lines 68-75. -/
def applyLeaderFlags (results : List VariantResult) : List VariantResult :=
  if 0 < results.length then
    results.map
      (setFlags (qMax (results.map VariantResult.revenue))
        (qMax (results.map VariantResult.rpv)))
  else results

/-- The Simulation Engine, `App.tsx` lines 39-78: per-variant results in
input order with leader flags applied, plus the summed traffic split
(accumulated from the looked-up assumptions, defaults included). -/
def simulation (variants : List PricingVariant) (ga : GlobalAssumptions) :
    SimulationOutput :=
  { results := applyLeaderFlags (variants.map (computeResult ga))
    trafficSplitTotal :=
      (variants.map (fun v => (lookupAssumptions ga v.id).trafficSplit)).sum }

/-- The placeholder returned at `App.tsx` line 85. -/
def awaitingMsg : String := "Awaiting simulation data..."

/-- The fixed sentence returned at `App.tsx` line 88 when the RPV leader is
the control variant. -/
def controlBestMsg : String :=
  "The Control variant remains the most efficient strategy. Test variants have not yet demonstrated a significant uplift in Revenue Per Visitor (RPV)."

/-- Qualifying clause appended at `App.tsx` line 97. -/
def clauseConvVolume : String :=
  "It improves conversion volume significantly, successfully offsetting the lower price point/ARPU."

/-- Qualifying clause appended at `App.tsx` line 99. -/
def clauseHighArpu : String :=
  "High ARPU is driving the success here, though it comes at the cost of a lower conversion rate compared to the baseline."

/-- Qualifying clause appended at `App.tsx` line 101. -/
def clauseExpansion : String :=
  "It manages to increase both individual customer value and overall conversion—a highly efficient expansion strategy."

/-- The rendering `lift.toFixed(1)` of `App.tsx` line 94: the rational with
one decimal digit, rounding half away from zero. -/
def toFixed1 (q : ℚ) : String :=
  let n : ℤ := round (|q| * 10)
  (if q < 0 then "-" else "") ++ toString (n / 10) ++ "." ++ toString (n % 10)

/-- The Insight Generator, `App.tsx` lines 81-105. -/
def experimentInsight (sim : SimulationOutput) : String :=
  match sim.results.find? (fun r => r.isRPVLeader),
      sim.results.find? (fun r => r.variantId == "v1") with
  | some leader, some control =>
    if leader.variantId = "v1" then controlBestMsg
    else
      let lift := ((leader.rpv - control.rpv) / control.rpv) * 100
      let convDiff :=
        ((leader.conversions / leader.visitors) -
          (control.conversions / control.visitors)) * 100
      let base := leader.name ++ " is the winner with a " ++ toFixed1 lift ++
        "% efficiency lift over Control. "
      if 0 < convDiff ∧ leader.arpu < control.arpu then base ++ clauseConvVolume
      else if convDiff < 0 ∧ control.arpu < leader.arpu then base ++ clauseHighArpu
      else if 0 < convDiff ∧ control.arpu ≤ leader.arpu then base ++ clauseExpansion
      else base
  | _, _ => awaitingMsg

/-- The first default variant created at session start (`App.tsx` line 21). -/
def controlVariant : PricingVariant :=
  { id := "v1", name := "Control", price := 499, billingCycle := BillingCycle.Monthly,
    notes := "Current baseline", isControl := true }

/-- The second default variant created at session start (`App.tsx` line 22). -/
def testVariant1 : PricingVariant :=
  { id := "v2", name := "Test Variant 1", price := 349, billingCycle := BillingCycle.Monthly,
    notes := "Testing lower price point", isControl := false }

/-- The third default variant created at session start (`App.tsx` line 23). -/
def testVariant2 : PricingVariant :=
  { id := "v3", name := "Test Variant 2", price := 3990, billingCycle := BillingCycle.Annual,
    notes := "Testing annual commitment", isControl := false }

/-- The default variant list created at session start (`App.tsx` lines
20-24). -/
def defaultVariants : List PricingVariant :=
  [controlVariant, testVariant1, testVariant2]

/-- The default global assumptions created at session start (`App.tsx`
lines 26-33). -/
def defaultGlobalAssumptions : GlobalAssumptions :=
  { monthlyTraffic := 25000
    perVariantAssumptions :=
      [ ("v1", { variantId := "v1", trafficSplit := 34, convRate := 21/5, churnRate := 5 }),
        ("v2", { variantId := "v2", trafficSplit := 33, convRate := 61/10, churnRate := 8 }),
        ("v3", { variantId := "v3", trafficSplit := 33, convRate := 14/5, churnRate := 2 }) ] }

/-- A variant whose id has no entry in the default assumptions map; used to
exercise the default-substitution path on a concrete input. -/
def ghostVariant : PricingVariant :=
  { id := "v9", name := "Ghost", price := 100, billingCycle := BillingCycle.Monthly,
    notes := "", isControl := false }

/-- A global-assumptions record with an empty per-variant map. -/
def emptyAssumptions : GlobalAssumptions :=
  { monthlyTraffic := 0, perVariantAssumptions := [] }

/-- A concrete simulation output whose RPV leader carries the control id
`"v1"`. -/
def controlLeadsOutput : SimulationOutput :=
  { results :=
      [ { variantId := "v1", name := "Control", visitors := 1, conversions := 1,
          revenue := 1, arpu := 1, rpv := 1,
          isRevenueLeader := true, isRPVLeader := true },
        { variantId := "v2", name := "Test Variant 1", visitors := 1, conversions := 1,
          revenue := 1, arpu := 1, rpv := 1,
          isRevenueLeader := false, isRPVLeader := false } ]
    trafficSplitTotal := 100 }

/-- The control entry of `testLeadsOutput`. -/
def testLeadsControlResult : VariantResult :=
  { variantId := "v1", name := "Control", visitors := 2, conversions := 1,
    revenue := 2, arpu := 1, rpv := 1,
    isRevenueLeader := false, isRPVLeader := false }

/-- The leading entry of `testLeadsOutput`. -/
def testLeadsWinnerResult : VariantResult :=
  { variantId := "v2", name := "Test Variant 1", visitors := 1, conversions := 1,
    revenue := 2, arpu := 2, rpv := 2,
    isRevenueLeader := true, isRPVLeader := true }

/-- A concrete simulation output whose RPV leader is not the control. -/
def testLeadsOutput : SimulationOutput :=
  { results := [testLeadsControlResult, testLeadsWinnerResult]
    trafficSplitTotal := 100 }

/-- The result the engine computes for `controlVariant` under
`emptyAssumptions`: every metric zero and no flag set. -/
def zeroControlResult : VariantResult :=
  { variantId := "v1", name := "Control", visitors := 0, conversions := 0,
    revenue := 0, arpu := 0, rpv := 0, isRevenueLeader := false, isRPVLeader := false }

/-! Projection lemmas for the per-variant computation -/

theorem computeResult_visitors (ga : GlobalAssumptions) (v : PricingVariant) :
    (computeResult ga v).visitors =
      ga.monthlyTraffic * ((lookupAssumptions ga v.id).trafficSplit / 100) := rfl

theorem computeResult_conversions (ga : GlobalAssumptions) (v : PricingVariant) :
    (computeResult ga v).conversions =
      (computeResult ga v).visitors * ((lookupAssumptions ga v.id).convRate / 100) := rfl

theorem computeResult_revenue (ga : GlobalAssumptions) (v : PricingVariant) :
    (computeResult ga v).revenue =
      if v.billingCycle = BillingCycle.Annual
        then (computeResult ga v).conversions * v.price / 12
        else (computeResult ga v).conversions * v.price := rfl

theorem computeResult_arpu (ga : GlobalAssumptions) (v : PricingVariant) :
    (computeResult ga v).arpu =
      if 0 < (computeResult ga v).conversions
        then (if v.billingCycle = BillingCycle.Annual then v.price / 12 else v.price)
        else 0 := rfl

theorem computeResult_rpv (ga : GlobalAssumptions) (v : PricingVariant) :
    (computeResult ga v).rpv =
      if 0 < (computeResult ga v).visitors
        then (computeResult ga v).revenue / (computeResult ga v).visitors
        else 0 := rfl

theorem setFlags_variantId (a b : ℚ) (r : VariantResult) :
    (setFlags a b r).variantId = r.variantId := rfl

theorem setFlags_name (a b : ℚ) (r : VariantResult) :
    (setFlags a b r).name = r.name := rfl

theorem setFlags_visitors (a b : ℚ) (r : VariantResult) :
    (setFlags a b r).visitors = r.visitors := rfl

theorem setFlags_conversions (a b : ℚ) (r : VariantResult) :
    (setFlags a b r).conversions = r.conversions := rfl

theorem setFlags_revenue (a b : ℚ) (r : VariantResult) :
    (setFlags a b r).revenue = r.revenue := rfl

theorem setFlags_arpu (a b : ℚ) (r : VariantResult) :
    (setFlags a b r).arpu = r.arpu := rfl

theorem setFlags_rpv (a b : ℚ) (r : VariantResult) :
    (setFlags a b r).rpv = r.rpv := rfl

theorem setFlags_isRevenueLeader (a b : ℚ) (r : VariantResult) :
    (setFlags a b r).isRevenueLeader = decide (r.revenue = a ∧ 0 < a) := rfl

theorem setFlags_isRPVLeader (a b : ℚ) (r : VariantResult) :
    (setFlags a b r).isRPVLeader = decide (r.rpv = b ∧ 0 < b) := rfl

/-! Facts about the nonempty maximum -/

theorem le_qMax_of_mem : ∀ {l : List ℚ} {x : ℚ}, x ∈ l → x ≤ qMax l
  | [x], y, h => by simp at h; simp [qMax, h]
  | x :: y :: xs, z, h => by
    rcases List.mem_cons.1 h with rfl | h
    · exact le_max_left _ _
    · exact le_trans (le_qMax_of_mem h) (le_max_right _ _)

theorem qMax_mem : ∀ {l : List ℚ}, l ≠ [] → qMax l ∈ l
  | [x], _ => by simp [qMax]
  | x :: y :: xs, _ => by
    rcases max_cases x (qMax (y :: xs)) with ⟨h, _⟩ | ⟨h, _⟩
    · simp [qMax, h]
    · have := qMax_mem (l := y :: xs) (by simp)
      simp only [qMax, h]
      exact List.mem_cons_of_mem _ this

theorem qMax_iff {l : List ℚ} {q : ℚ} (hq : q ∈ l) :
    (q = qMax l ∧ 0 < qMax l) ↔ (0 < q ∧ ∀ r ∈ l, r ≤ q) := by
  constructor
  · rintro ⟨rfl, h⟩
    exact ⟨h, fun r hr => le_qMax_of_mem hr⟩
  · rintro ⟨h0, hall⟩
    have hmem := qMax_mem (l := l) (by rintro rfl; simp at hq)
    have heq : q = qMax l := le_antisymm (le_qMax_of_mem hq) (hall _ hmem)
    exact ⟨heq, heq ▸ h0⟩

/-! Shape of the engine output -/

theorem applyLeaderFlags_nil : applyLeaderFlags [] = [] := rfl

theorem applyLeaderFlags_of_ne_nil {l : List VariantResult} (h : l ≠ []) :
    applyLeaderFlags l =
      l.map (setFlags (qMax (l.map VariantResult.revenue))
        (qMax (l.map VariantResult.rpv))) := by
  simp [applyLeaderFlags, List.length_pos, h]

theorem simulation_results_getElem? (variants : List PricingVariant)
    (ga : GlobalAssumptions) (i : ℕ) (v : PricingVariant)
    (hv : variants[i]? = some v) :
    (simulation variants ga).results[i]? =
      some (setFlags
        (qMax ((variants.map (computeResult ga)).map VariantResult.revenue))
        (qMax ((variants.map (computeResult ga)).map VariantResult.rpv))
        (computeResult ga v)) := by
  have hne : variants ≠ [] := by rintro rfl; simp at hv
  have hlne : variants.map (computeResult ga) ≠ [] := by simpa using hne
  simp [simulation, applyLeaderFlags_of_ne_nil hlne, List.getElem?_map, hv]

/-- C1: for every variant list, global-assumptions record, and variant `v`
in the list, the engine result for `v` satisfies exactly:
`visitors = monthlyTraffic * (trafficSplit/100)`,
`conversions = visitors * (convRate/100)`, `revenue` is
`conversions * price` divided by 12 for an Annual billing cycle and
undivided for Monthly, and `rpv = revenue/visitors` when `visitors > 0`
and `0` otherwise, where the assumptions are looked up by the id of `v`. -/
theorem c1_engine_arithmetic (variants : List PricingVariant)
    (ga : GlobalAssumptions) (i : ℕ) (v : PricingVariant)
    (hv : variants[i]? = some v) :
    ∃ r, (simulation variants ga).results[i]? = some r ∧
      r.visitors = ga.monthlyTraffic * ((lookupAssumptions ga v.id).trafficSplit / 100) ∧
      r.conversions = r.visitors * ((lookupAssumptions ga v.id).convRate / 100) ∧
      r.revenue = (if v.billingCycle = BillingCycle.Annual
        then r.conversions * v.price / 12 else r.conversions * v.price) ∧
      r.rpv = (if 0 < r.visitors then r.revenue / r.visitors else 0) := by
  refine ⟨_, simulation_results_getElem? variants ga i v hv, ?_, ?_, ?_, ?_⟩
  · rw [setFlags_visitors, computeResult_visitors]
  · rw [setFlags_conversions, setFlags_visitors, computeResult_conversions]
  · rw [setFlags_revenue, setFlags_conversions, computeResult_revenue]
  · rw [setFlags_rpv, setFlags_visitors, setFlags_revenue, computeResult_rpv]

/-- Witness for `c1_engine_arithmetic`: the default session inputs at index
0, the control variant. -/
theorem c1_engine_arithmetic_witness :
    ∃ r, (simulation defaultVariants defaultGlobalAssumptions).results[0]? = some r ∧
      r.visitors = defaultGlobalAssumptions.monthlyTraffic *
        ((lookupAssumptions defaultGlobalAssumptions controlVariant.id).trafficSplit / 100) ∧
      r.conversions = r.visitors *
        ((lookupAssumptions defaultGlobalAssumptions controlVariant.id).convRate / 100) ∧
      r.revenue = (if controlVariant.billingCycle = BillingCycle.Annual
        then r.conversions * controlVariant.price / 12
        else r.conversions * controlVariant.price) ∧
      r.rpv = (if 0 < r.visitors then r.revenue / r.visitors else 0) :=
  c1_engine_arithmetic defaultVariants defaultGlobalAssumptions 0 controlVariant rfl

/-- C3: the engine computes an `arpu` of `0` when the variant has `0`
conversions, and otherwise an `arpu` of `price/12` for an Annual billing
cycle and `price` for Monthly — a price-derived quantity, depending only
on price and billing cycle, independent of traffic or conversion volume
(the right-hand side below mentions neither).  Inputs range over the
domain of the data model: non-negative traffic, traffic split and
conversion rate. -/
theorem c3_arpu_price_derived (variants : List PricingVariant)
    (ga : GlobalAssumptions) (i : ℕ) (v : PricingVariant)
    (hv : variants[i]? = some v)
    (hT : 0 ≤ ga.monthlyTraffic)
    (hs : 0 ≤ (lookupAssumptions ga v.id).trafficSplit)
    (hc : 0 ≤ (lookupAssumptions ga v.id).convRate) :
    ∃ r, (simulation variants ga).results[i]? = some r ∧
      (r.conversions = 0 → r.arpu = 0) ∧
      (r.conversions ≠ 0 →
        r.arpu = (if v.billingCycle = BillingCycle.Annual then v.price / 12 else v.price)) := by
  refine ⟨_, simulation_results_getElem? variants ga i v hv, ?_, ?_⟩
  · intro h0
    rw [setFlags_conversions] at h0
    rw [setFlags_arpu, computeResult_arpu, h0]
    simp
  · intro hne
    rw [setFlags_conversions] at hne
    have hnn : 0 ≤ (computeResult ga v).conversions := by
      rw [computeResult_conversions, computeResult_visitors]
      have h100 : (0:ℚ) ≤ 100 := by norm_num
      exact mul_nonneg (mul_nonneg hT (div_nonneg hs h100)) (div_nonneg hc h100)
    have hpos : 0 < (computeResult ga v).conversions := lt_of_le_of_ne hnn (Ne.symm hne)
    rw [setFlags_arpu, computeResult_arpu, if_pos hpos]

/-- Witness for `c3_arpu_price_derived`: the default session inputs at
index 0. -/
theorem c3_arpu_price_derived_witness :
    ∃ r, (simulation defaultVariants defaultGlobalAssumptions).results[0]? = some r ∧
      (r.conversions = 0 → r.arpu = 0) ∧
      (r.conversions ≠ 0 →
        r.arpu = (if controlVariant.billingCycle = BillingCycle.Annual
          then controlVariant.price / 12 else controlVariant.price)) :=
  c3_arpu_price_derived defaultVariants defaultGlobalAssumptions 0 controlVariant rfl
    (by norm_num [defaultGlobalAssumptions])
    (by simp [lookupAssumptions, defaultGlobalAssumptions, controlVariant, List.lookup])
    (by simp [lookupAssumptions, defaultGlobalAssumptions, controlVariant, List.lookup]; norm_num)

/-- C4: the engine is total (it is a Lean function, defined on every
input); a variant whose id is absent from the assumptions map is computed
with the zeroed default, yielding `visitors = 0`, `conversions = 0`,
`revenue = 0`, `rpv = 0`, and contributing `0` to `trafficSplitTotal`; an
empty variant list yields an empty result sequence (hence no leader flag
set anywhere) with `trafficSplitTotal = 0`. -/
theorem c4_engine_total_defaults (ga : GlobalAssumptions)
    (vs1 vs2 : List PricingVariant) (v : PricingVariant)
    (h : ga.perVariantAssumptions.lookup v.id = none) :
    (simulation [] ga).results = [] ∧
    (simulation [] ga).trafficSplitTotal = 0 ∧
    lookupAssumptions ga v.id = defaultAssumptions v.id ∧
    (∃ r, (simulation (vs1 ++ v :: vs2) ga).results[vs1.length]? = some r ∧
      r.visitors = 0 ∧ r.conversions = 0 ∧ r.revenue = 0 ∧ r.rpv = 0) ∧
    (simulation (vs1 ++ v :: vs2) ga).trafficSplitTotal =
      (simulation (vs1 ++ vs2) ga).trafficSplitTotal := by
  have hva : lookupAssumptions ga v.id = defaultAssumptions v.id := by
    simp [lookupAssumptions, h]
  have hv : (vs1 ++ v :: vs2)[vs1.length]? = some v := by
    rw [List.getElem?_append_right (Nat.le_refl _)]
    simp
  have hvis : (computeResult ga v).visitors = 0 := by
    rw [computeResult_visitors, hva]
    simp [defaultAssumptions]
  have hconv : (computeResult ga v).conversions = 0 := by
    rw [computeResult_conversions, hvis]
    simp
  have hrev : (computeResult ga v).revenue = 0 := by
    rw [computeResult_revenue, hconv]
    simp
  refine ⟨rfl, rfl, hva, ⟨_, simulation_results_getElem? _ ga _ v hv, ?_, ?_, ?_, ?_⟩, ?_⟩
  · rw [setFlags_visitors, hvis]
  · rw [setFlags_conversions, hconv]
  · rw [setFlags_revenue, hrev]
  · rw [setFlags_rpv, computeResult_rpv, hvis]
    simp
  · simp [simulation, List.map_append, List.sum_append, hva, defaultAssumptions]

/-- Witness for `c4_engine_total_defaults`: the default assumptions map,
which has no entry for the `ghostVariant` id `"v9"`. -/
theorem c4_engine_total_defaults_witness :
    (simulation [] defaultGlobalAssumptions).results = [] ∧
    (simulation [] defaultGlobalAssumptions).trafficSplitTotal = 0 ∧
    lookupAssumptions defaultGlobalAssumptions ghostVariant.id =
      defaultAssumptions ghostVariant.id ∧
    (∃ r, (simulation [ghostVariant] defaultGlobalAssumptions).results[0]? = some r ∧
      r.visitors = 0 ∧ r.conversions = 0 ∧ r.revenue = 0 ∧ r.rpv = 0) ∧
    (simulation [ghostVariant] defaultGlobalAssumptions).trafficSplitTotal =
      (simulation [] defaultGlobalAssumptions).trafficSplitTotal :=
  c4_engine_total_defaults defaultGlobalAssumptions [] [] ghostVariant rfl

/-- C2: in every simulation output, a result is flagged revenue leader
exactly when its revenue is positive and no other revenue exceeds it
(that is, its revenue equals the maximum and the maximum is positive), and
likewise for the RPV flag; with a zero maximum, or an empty result list,
no result carries the flag (the empty case is vacuous here since no `r` is
a member). -/
theorem c2_leader_flags (variants : List PricingVariant)
    (ga : GlobalAssumptions) (r : VariantResult)
    (hr : r ∈ (simulation variants ga).results) :
    (r.isRevenueLeader = true ↔
      (0 < r.revenue ∧ ∀ s ∈ (simulation variants ga).results, s.revenue ≤ r.revenue)) ∧
    (r.isRPVLeader = true ↔
      (0 < r.rpv ∧ ∀ s ∈ (simulation variants ga).results, s.rpv ≤ r.rpv)) := by
  rcases hl : variants.map (computeResult ga) with _ | ⟨t, ts⟩
  · rw [simulation] at hr
    rw [hl] at hr
    simp [applyLeaderFlags_nil] at hr
  · have hlne : variants.map (computeResult ga) ≠ [] := by rw [hl]; simp
    have hres : (simulation variants ga).results =
        (variants.map (computeResult ga)).map
          (setFlags (qMax ((variants.map (computeResult ga)).map VariantResult.revenue))
            (qMax ((variants.map (computeResult ga)).map VariantResult.rpv))) := by
      rw [simulation, applyLeaderFlags_of_ne_nil hlne]
    rw [hres] at hr ⊢
    rcases List.mem_map.1 hr with ⟨s, hs, rfl⟩
    constructor
    · rw [setFlags_isRevenueLeader, setFlags_revenue, decide_eq_true_iff]
      rw [qMax_iff (List.mem_map_of_mem VariantResult.revenue hs)]
      constructor
      · rintro ⟨h0, hall⟩
        refine ⟨h0, ?_⟩
        intro x hx
        rcases List.mem_map.1 hx with ⟨u, hu, rfl⟩
        rw [setFlags_revenue]
        exact hall _ (List.mem_map_of_mem VariantResult.revenue hu)
      · rintro ⟨h0, hall⟩
        refine ⟨h0, ?_⟩
        intro q hq
        rcases List.mem_map.1 hq with ⟨u, hu, rfl⟩
        have := hall _ (List.mem_map_of_mem _ hu)
        rwa [setFlags_revenue] at this
    · rw [setFlags_isRPVLeader, setFlags_rpv, decide_eq_true_iff]
      rw [qMax_iff (List.mem_map_of_mem VariantResult.rpv hs)]
      constructor
      · rintro ⟨h0, hall⟩
        refine ⟨h0, ?_⟩
        intro x hx
        rcases List.mem_map.1 hx with ⟨u, hu, rfl⟩
        rw [setFlags_rpv]
        exact hall _ (List.mem_map_of_mem VariantResult.rpv hu)
      · rintro ⟨h0, hall⟩
        refine ⟨h0, ?_⟩
        intro q hq
        rcases List.mem_map.1 hq with ⟨u, hu, rfl⟩
        have := hall _ (List.mem_map_of_mem _ hu)
        rwa [setFlags_rpv] at this

theorem zero_results_eq :
    (simulation [controlVariant] emptyAssumptions).results = [zeroControlResult] := by
  simp [simulation, applyLeaderFlags, qMax, setFlags, computeResult, lookupAssumptions,
    emptyAssumptions, defaultAssumptions, controlVariant, zeroControlResult]

theorem c2_leader_flags_witness :
    (zeroControlResult.isRevenueLeader = true ↔
      (0 < zeroControlResult.revenue ∧
        ∀ s ∈ (simulation [controlVariant] emptyAssumptions).results,
          s.revenue ≤ zeroControlResult.revenue)) ∧
    (zeroControlResult.isRPVLeader = true ↔
      (0 < zeroControlResult.rpv ∧
        ∀ s ∈ (simulation [controlVariant] emptyAssumptions).results,
          s.rpv ≤ zeroControlResult.rpv)) :=
  c2_leader_flags [controlVariant] emptyAssumptions zeroControlResult
    (by rw [zero_results_eq]; exact List.mem_singleton.2 rfl)

/-- C8: under the same global assumptions (hence the same traffic, traffic
split and conversion rate, looked up by the shared id), a variant priced
`P` on an Annual billing cycle produces exactly the same `revenue`, `arpu`
and `rpv` as a variant priced `P / 12` on a Monthly cycle. -/
theorem c8_annual_matches_monthly (ga : GlobalAssumptions)
    (id nm nm2 nt nt2 : String) (b b2 : Bool) (P : ℚ) :
    (computeResult ga ⟨id, nm, P, BillingCycle.Annual, nt, b⟩).revenue =
      (computeResult ga ⟨id, nm2, P / 12, BillingCycle.Monthly, nt2, b2⟩).revenue ∧
    (computeResult ga ⟨id, nm, P, BillingCycle.Annual, nt, b⟩).arpu =
      (computeResult ga ⟨id, nm2, P / 12, BillingCycle.Monthly, nt2, b2⟩).arpu ∧
    (computeResult ga ⟨id, nm, P, BillingCycle.Annual, nt, b⟩).rpv =
      (computeResult ga ⟨id, nm2, P / 12, BillingCycle.Monthly, nt2, b2⟩).rpv := by
  have hconv : (computeResult ga ⟨id, nm, P, BillingCycle.Annual, nt, b⟩).conversions =
      (computeResult ga ⟨id, nm2, P / 12, BillingCycle.Monthly, nt2, b2⟩).conversions := rfl
  have hvis : (computeResult ga ⟨id, nm, P, BillingCycle.Annual, nt, b⟩).visitors =
      (computeResult ga ⟨id, nm2, P / 12, BillingCycle.Monthly, nt2, b2⟩).visitors := rfl
  have hrev : (computeResult ga ⟨id, nm, P, BillingCycle.Annual, nt, b⟩).revenue =
      (computeResult ga ⟨id, nm2, P / 12, BillingCycle.Monthly, nt2, b2⟩).revenue := by
    rw [computeResult_revenue, computeResult_revenue, if_pos rfl, if_neg (by simp),
      hconv, mul_div_assoc]
  refine ⟨hrev, ?_, ?_⟩
  · rw [computeResult_arpu, computeResult_arpu, hconv]
    have h1 : (if (⟨id, nm, P, BillingCycle.Annual, nt, b⟩ : PricingVariant).billingCycle =
        BillingCycle.Annual
        then (⟨id, nm, P, BillingCycle.Annual, nt, b⟩ : PricingVariant).price / 12
        else (⟨id, nm, P, BillingCycle.Annual, nt, b⟩ : PricingVariant).price) = P / 12 :=
      if_pos rfl
    have h2 : (if (⟨id, nm2, P / 12, BillingCycle.Monthly, nt2, b2⟩ : PricingVariant).billingCycle =
        BillingCycle.Annual
        then (⟨id, nm2, P / 12, BillingCycle.Monthly, nt2, b2⟩ : PricingVariant).price / 12
        else (⟨id, nm2, P / 12, BillingCycle.Monthly, nt2, b2⟩ : PricingVariant).price) = P / 12 :=
      if_neg (by simp)
    rw [h1, h2]
  · rw [computeResult_rpv, computeResult_rpv, hvis, hrev]

theorem lookup_default_control :
    lookupAssumptions defaultGlobalAssumptions controlVariant.id =
      { variantId := "v1", trafficSplit := 34, convRate := 21/5, churnRate := 5 } := rfl

theorem lookup_default_test2 :
    lookupAssumptions defaultGlobalAssumptions testVariant2.id =
      { variantId := "v3", trafficSplit := 33, convRate := 14/5, churnRate := 2 } := rfl

/-- C9 (Scenario A, exact arithmetic): with the default inputs — traffic
25000, splits 34/33/33, conversion rates 4.2/6.1/2.8, prices 499/349/3990,
cycles Monthly/Monthly/Annual — the first variant gets 8500 visitors, 357
conversions and revenue 178143, and the third variant gets 231
conversions, raw revenue `231 * 3990 = 921690`, and normalized monthly
revenue `153615/2 = 76807.5`. -/
theorem c9_default_numbers :
    ∃ r1 r3,
      (simulation defaultVariants defaultGlobalAssumptions).results[0]? = some r1 ∧
      (simulation defaultVariants defaultGlobalAssumptions).results[2]? = some r3 ∧
      r1.visitors = 8500 ∧ r1.conversions = 357 ∧ r1.revenue = 178143 ∧
      r3.conversions = 231 ∧ r3.conversions * testVariant2.price = 921690 ∧
      r3.revenue = 153615 / 2 := by
  have hvis1 : (computeResult defaultGlobalAssumptions controlVariant).visitors = 8500 := by
    rw [computeResult_visitors, lookup_default_control]
    norm_num [defaultGlobalAssumptions]
  have hconv1 : (computeResult defaultGlobalAssumptions controlVariant).conversions = 357 := by
    rw [computeResult_conversions, hvis1, lookup_default_control]
    norm_num
  have hconv3 : (computeResult defaultGlobalAssumptions testVariant2).conversions = 231 := by
    rw [computeResult_conversions, computeResult_visitors, lookup_default_test2]
    norm_num [defaultGlobalAssumptions]
  refine ⟨_, _,
    simulation_results_getElem? defaultVariants defaultGlobalAssumptions 0 controlVariant rfl,
    simulation_results_getElem? defaultVariants defaultGlobalAssumptions 2 testVariant2 rfl,
    ?_, ?_, ?_, ?_, ?_, ?_⟩
  · rw [setFlags_visitors, hvis1]
  · rw [setFlags_conversions, hconv1]
  · rw [setFlags_revenue, computeResult_revenue, if_neg (by decide), hconv1]
    norm_num [controlVariant]
  · rw [setFlags_conversions, hconv3]
  · rw [setFlags_conversions, hconv3]
    norm_num [testVariant2]
  · rw [setFlags_revenue, computeResult_revenue,
      if_pos (show testVariant2.billingCycle = BillingCycle.Annual from rfl), hconv3]
    norm_num [testVariant2]

/-! The three insight messages are pairwise distinguishable -/

theorem awaiting_ne_controlBest : awaitingMsg ≠ controlBestMsg := by decide

theorem countW_mid : (" is the winner with a ").data.count 'w' = 2 := by decide

theorem countW_tail : ("% efficiency lift over Control. ").data.count 'w' = 0 := by decide

theorem countW_awaiting : awaitingMsg.data.count 'w' = 1 := by decide

theorem countW_controlBest : controlBestMsg.data.count 'w' = 0 := by decide

theorem winner_app_ne_awaiting (n t e : String) :
    n ++ " is the winner with a " ++ t ++ "% efficiency lift over Control. " ++ e ≠
      awaitingMsg := by
  intro h
  have hc := congrArg (fun s => s.data.count 'w') h
  simp only [String.data_append, List.count_append] at hc
  rw [countW_mid, countW_tail, countW_awaiting] at hc
  omega

theorem winner_ne_awaiting (n t : String) :
    n ++ " is the winner with a " ++ t ++ "% efficiency lift over Control. " ≠
      awaitingMsg := by
  intro h
  have hc := congrArg (fun s => s.data.count 'w') h
  simp only [String.data_append, List.count_append] at hc
  rw [countW_mid, countW_tail, countW_awaiting] at hc
  omega

theorem winner_app_ne_controlBest (n t e : String) :
    n ++ " is the winner with a " ++ t ++ "% efficiency lift over Control. " ++ e ≠
      controlBestMsg := by
  intro h
  have hc := congrArg (fun s => s.data.count 'w') h
  simp only [String.data_append, List.count_append] at hc
  rw [countW_mid, countW_tail, countW_controlBest] at hc
  omega

theorem winner_ne_controlBest (n t : String) :
    n ++ " is the winner with a " ++ t ++ "% efficiency lift over Control. " ≠
      controlBestMsg := by
  intro h
  have hc := congrArg (fun s => s.data.count 'w') h
  simp only [String.data_append, List.count_append] at hc
  rw [countW_mid, countW_tail, countW_controlBest] at hc
  omega

/-! Characterizing the three outcomes of the Insight Generator -/

theorem experimentInsight_awaiting_iff (sim : SimulationOutput) :
    experimentInsight sim = awaitingMsg ↔
      sim.results.find? (fun r => r.isRPVLeader) = none ∨
      sim.results.find? (fun r => r.variantId == "v1") = none := by
  rcases h1 : sim.results.find? (fun r => r.isRPVLeader) with _ | l
  · simp [experimentInsight, h1]
  · rcases h2 : sim.results.find? (fun r => r.variantId == "v1") with _ | c
    · simp [experimentInsight, h1, h2]
    · simp only [experimentInsight, h1, h2]
      constructor
      · intro h
        exfalso
        by_cases hid : l.variantId = "v1"
        · rw [if_pos hid] at h
          exact awaiting_ne_controlBest h.symm
        · rw [if_neg hid] at h
          revert h
          split_ifs <;> intro h
          · exact winner_app_ne_awaiting _ _ _ h
          · exact winner_app_ne_awaiting _ _ _ h
          · exact winner_app_ne_awaiting _ _ _ h
          · exact winner_ne_awaiting _ _ h
      · rintro (h | h) <;> exact absurd h (by simp)

theorem experimentInsight_controlBest_iff (sim : SimulationOutput) :
    experimentInsight sim = controlBestMsg ↔
      ∃ l, sim.results.find? (fun r => r.isRPVLeader) = some l ∧
        l.variantId = "v1" := by
  rcases h1 : sim.results.find? (fun r => r.isRPVLeader) with _ | l
  · simp [experimentInsight, h1, awaiting_ne_controlBest]
  · rcases h2 : sim.results.find? (fun r => r.variantId == "v1") with _ | c
    · constructor
      · intro h
        exfalso
        have := experimentInsight_awaiting_iff sim
        rw [h1, h2] at this
        rw [(this.2 (Or.inr rfl) : experimentInsight sim = awaitingMsg)] at h
        exact awaiting_ne_controlBest h
      · rintro ⟨l', hl', hid⟩
        rw [h1] at hl'
        cases hl'
        have hmem := List.mem_of_find?_eq_some h1
        have hnone := List.find?_eq_none.1 h2 l hmem
        simp [hid] at hnone
    · simp only [experimentInsight, h1, h2]
      by_cases hid : l.variantId = "v1"
      · rw [if_pos hid]
        exact iff_of_true rfl ⟨l, rfl, hid⟩
      · rw [if_neg hid]
        constructor
        · intro h
          exfalso
          revert h
          split_ifs <;> intro h
          · exact winner_app_ne_controlBest _ _ _ h
          · exact winner_app_ne_controlBest _ _ _ h
          · exact winner_app_ne_controlBest _ _ _ h
          · exact winner_ne_controlBest _ _ h
        · rintro ⟨l', hl', hid'⟩
          cases hl'
          exact absurd hid' hid

/-- C5: the Insight Generator returns the fixed awaiting-data placeholder
exactly when no RPV-leader result or no control result (a result whose
`variantId` is `"v1"`) can be located in the simulation output; in every
other case the output differs from the placeholder (it is the fixed
control sentence or a descriptive winner sentence). -/
theorem c5_placeholder_iff (sim : SimulationOutput) :
    experimentInsight sim = awaitingMsg ↔
      ((¬ ∃ r ∈ sim.results, r.isRPVLeader = true) ∨
       (¬ ∃ r ∈ sim.results, r.variantId = "v1")) := by
  rw [experimentInsight_awaiting_iff, List.find?_eq_none, List.find?_eq_none]
  simp

/-- C6: whenever the simulation output has an RPV-leader result and a
control result and the leader carries the control id `"v1"`, the Insight
Generator returns the fixed control-remains-best sentence, whatever the
other results hold. -/
theorem c6_control_remains_best (sim : SimulationOutput) (l c : VariantResult)
    (h1 : sim.results.find? (fun r => r.isRPVLeader) = some l)
    (h2 : sim.results.find? (fun r => r.variantId == "v1") = some c)
    (h3 : l.variantId = "v1") :
    experimentInsight sim = controlBestMsg := by
  simp [experimentInsight, h1, h2, h3]

/-- Witness for `c6_control_remains_best`: a two-result output whose RPV
leader is the `"v1"` result. -/
theorem c6_control_remains_best_witness :
    experimentInsight controlLeadsOutput = controlBestMsg :=
  c6_control_remains_best controlLeadsOutput
    { variantId := "v1", name := "Control", visitors := 1, conversions := 1,
      revenue := 1, arpu := 1, rpv := 1, isRevenueLeader := true, isRPVLeader := true }
    { variantId := "v1", name := "Control", visitors := 1, conversions := 1,
      revenue := 1, arpu := 1, rpv := 1, isRevenueLeader := true, isRPVLeader := true }
    rfl rfl rfl

/-- C7: when an RPV leader and a control result both exist and the leader
is not the control, the insight states the leader name, the lift
`(leader.rpv - control.rpv) / control.rpv * 100` rendered to one decimal
place, and exactly one qualifying clause chosen by first match on
`convDiff = (leader.conversions/leader.visitors -
control.conversions/control.visitors) * 100` and the ARPU comparison,
with no clause in the remaining case. -/
theorem c7_winner_sentence (sim : SimulationOutput) (l c : VariantResult)
    (h1 : sim.results.find? (fun r => r.isRPVLeader) = some l)
    (h2 : sim.results.find? (fun r => r.variantId == "v1") = some c)
    (h3 : l.variantId ≠ "v1") :
    experimentInsight sim =
      l.name ++ " is the winner with a " ++
        toFixed1 (((l.rpv - c.rpv) / c.rpv) * 100) ++
        "% efficiency lift over Control. " ++
      (if 0 < ((l.conversions / l.visitors) - (c.conversions / c.visitors)) * 100 ∧
          l.arpu < c.arpu then clauseConvVolume
       else if ((l.conversions / l.visitors) - (c.conversions / c.visitors)) * 100 < 0 ∧
          c.arpu < l.arpu then clauseHighArpu
       else if 0 < ((l.conversions / l.visitors) - (c.conversions / c.visitors)) * 100 ∧
          c.arpu ≤ l.arpu then clauseExpansion
       else "") := by
  simp only [experimentInsight, h1, h2, if_neg h3]
  split_ifs
  · rfl
  · rfl
  · rfl
  · exact (String.append_empty _).symm

/-- Witness for `c7_winner_sentence`: a two-result output in which the
`"v2"` result leads on RPV. -/
theorem c7_winner_sentence_witness :
    experimentInsight testLeadsOutput =
      testLeadsWinnerResult.name ++ " is the winner with a " ++
        toFixed1 (((testLeadsWinnerResult.rpv - testLeadsControlResult.rpv) /
          testLeadsControlResult.rpv) * 100) ++
        "% efficiency lift over Control. " ++
      (if 0 < ((testLeadsWinnerResult.conversions / testLeadsWinnerResult.visitors) -
            (testLeadsControlResult.conversions / testLeadsControlResult.visitors)) * 100 ∧
          testLeadsWinnerResult.arpu < testLeadsControlResult.arpu then clauseConvVolume
       else if ((testLeadsWinnerResult.conversions / testLeadsWinnerResult.visitors) -
            (testLeadsControlResult.conversions / testLeadsControlResult.visitors)) * 100 < 0 ∧
          testLeadsControlResult.arpu < testLeadsWinnerResult.arpu then clauseHighArpu
       else if 0 < ((testLeadsWinnerResult.conversions / testLeadsWinnerResult.visitors) -
            (testLeadsControlResult.conversions / testLeadsControlResult.visitors)) * 100 ∧
          testLeadsControlResult.arpu ≤ testLeadsWinnerResult.arpu then clauseExpansion
       else "") :=
  c7_winner_sentence testLeadsOutput testLeadsWinnerResult testLeadsControlResult
    rfl rfl (by simp [testLeadsWinnerResult])

theorem simulation_isControl_irrelevant (variants : List PricingVariant)
    (ga : GlobalAssumptions) (g : PricingVariant → Bool) :
    simulation (variants.map (fun v => { v with isControl := g v })) ga =
      simulation variants ga := by
  have h1 : (computeResult ga ∘ fun v => { v with isControl := g v }) =
      computeResult ga := funext fun v => rfl
  have h2 : ((fun v : PricingVariant => (lookupAssumptions ga v.id).trafficSplit) ∘
      fun v : PricingVariant => ({ v with isControl := g v } : PricingVariant)) =
      (fun v : PricingVariant => (lookupAssumptions ga v.id).trafficSplit) :=
    funext fun v => rfl
  rw [simulation, simulation, List.map_map, List.map_map, h1, h2]

/-- C10: the Insight Generator identifies the control solely by the fixed
variant id `"v1"`: the placeholder is returned exactly when no result is
flagged RPV leader or no result has `variantId = "v1"`; the fixed
control-remains-best sentence is returned exactly when the located
RPV-leader result has `variantId = "v1"`; and the `isControl` flags of
the variants have no effect on the insight computed from the engine
output. -/
theorem c10_control_is_fixed_id :
    (∀ sim : SimulationOutput,
      (experimentInsight sim = awaitingMsg ↔
        sim.results.find? (fun r => r.isRPVLeader) = none ∨
        sim.results.find? (fun r => r.variantId == "v1") = none)) ∧
    (∀ sim : SimulationOutput,
      (experimentInsight sim = controlBestMsg ↔
        ∃ l, sim.results.find? (fun r => r.isRPVLeader) = some l ∧
          l.variantId = "v1")) ∧
    (∀ (variants : List PricingVariant) (ga : GlobalAssumptions)
        (g : PricingVariant → Bool),
      experimentInsight
          (simulation (variants.map (fun v => { v with isControl := g v })) ga) =
        experimentInsight (simulation variants ga)) :=
  ⟨experimentInsight_awaiting_iff, experimentInsight_controlBest_iff,
    fun variants ga g => by rw [simulation_isControl_irrelevant]⟩
